import Mathlib

/-!
Shallow embedding of the answer-generation and self-judging core of the
Ecommerce-RAG-Chatbot repository, together with theorems settling the
frozen claims about it.

Source files embedded:
  * `src/rag/config.py`   — `Settings.top_k` (the configured retrieval default).
  * `src/rag/pipeline.py` — `SYSTEM_TEMPLATE`, `RAGPipeline._build_prompt`,
    `RAGPipeline.ask`.
  * `src/rag/evaluator.py` — `CritiqueResult`, `InlineLLMJudge._build_critic_prompt`,
    `InlineLLMJudge.evaluate_answer`.

Modelling conventions:
  * External collaborators are function parameters: the generation model
    (`llm : String → String`, its output already coerced to a plain string as
    pipeline.py lines 74-78 do), the vector store
    (`search : String → Int → List Document`, for
    `vectorstore.similarity_search(question, k)`), and the judge model as an
    oracle `judge : Nat → String` giving the raw text of its n-th invocation
    within one loop run (the prompt passed on every invocation is identical,
    but the model is free to answer differently each time, which the oracle
    index captures).
  * Python strings are Lean `String`s, operated on at the code-point level
    as Python does: `s[:300]` takes the first 300 code points (`pySlice`),
    `sub in s` is contiguous-substring containment (`strContainsSub`),
    `s.split(sep)[-1]` is `(pySplit s sep).getLastD ""` (the split list is
    never empty, so `[-1]` is its last element), `.strip()` is `pyStrip`
    (whitespace off both ends) and `.upper()` is `pyUpper` (per code point;
    ASCII, which covers every string the code compares).
  * The Python `for cycle in range(1, max_cycles + 1)` loop with early
    `return`s becomes the fuel recursion `judgeLoop`; the fuel is the number
    of iterations remaining, so the top-level call passes
    `cycle = 1, fuel = max_cycles`.
  * The `chat_history` argument of `ask` is bound and never read (pipeline.py line
    62 only defaults it), and `temperature` is accepted and never used
    (pipeline.py line 53, "kept for future use"); both are omitted from the
    embedding.  `print` calls are side effects on stdout and are dropped, and
    the `reflection_history` list in `evaluate_answer` is appended to but
    never read (dead state per the spec), so it is dropped as well.
  * The external calls each run performs are returned as an explicit trace
    (`ExtCall`), in order, so that frame claims (one retrieval, no
    re-retrieval inside cycles) are statable.
-/

namespace RAGSpec

/-- Metadata mapping attached to a retrieved document (a `Dict[str, Any]` in
the source; it is only ever passed through untouched, so a concrete
association-list type suffices for the embedding). -/
abbrev Metadata := List (String × String)

/-- A document as returned by `vectorstore.similarity_search`: full text plus
metadata (langchain `Document` with `page_content` and `metadata`). -/
structure Document where
  page_content : String
  metadata : Metadata
deriving DecidableEq

/-- One entry of `meta["sources"]` as built by `RAGPipeline.ask`
(pipeline.py lines 83-89): a dict with the (possibly truncated)
`page_content` and the original `metadata`. -/
structure Source where
  page_content : String
  metadata : Metadata
deriving DecidableEq

/-- The `meta` dict returned by `RAGPipeline.ask` (pipeline.py lines 81-90). -/
structure Meta where
  num_sources : Nat
  sources : List Source
deriving DecidableEq

/-- Python string slicing `s[:n]`: the first `n` code points of `s` (all of
`s` when `s` has at most `n` code points). -/
def pySlice (s : String) (n : Nat) : String := String.mk (s.data.take n)

/-- Scanner for Python substring containment: does `sep` occur contiguously
in the scanned list?  (An empty `sep` is contained everywhere, as in
Python.) -/
def listContains (sep : List Char) : List Char → Bool
  | [] => sep.isEmpty
  | c :: rest => sep.isPrefixOf (c :: rest) || listContains sep rest

/-- Python substring containment `sub in s`: `sub` occurs contiguously in
`s`. -/
def strContainsSub (s sub : String) : Bool := listContains sub.data s.data

/-- Python `str.upper()`: uppercase every code point (the strings the code
compares are ASCII, where `Char.toUpper` agrees with Python). -/
def pyUpper (s : String) : String := String.mk (s.data.map Char.toUpper)

/-- Python `str.strip()`: drop whitespace from both ends. -/
def pyStrip (s : String) : String :=
  String.mk (((s.data.dropWhile Char.isWhitespace).reverse.dropWhile
    Char.isWhitespace).reverse)

/-- Worker for Python `str.split(sep)` with a non-empty separator: split at
every non-overlapping occurrence of `sep`, scanning left to right and
keeping empty segments.  The fuel argument only bounds the recursion; any
fuel of at least the length of the scanned list gives the split. -/
def pySplitGo (sep : List Char) : Nat → List Char → List (List Char)
  | _, [] => [[]]
  | 0, l => [l]
  | fuel + 1, c :: rest =>
    if sep.isPrefixOf (c :: rest) then
      [] :: pySplitGo sep fuel (List.drop (sep.length - 1) rest)
    else
      match pySplitGo sep fuel rest with
      | [] => [[c]]
      | h :: t => (c :: h) :: t

/-- Python `str.split(sep)` for a non-empty `sep`; the result is never
empty. -/
def pySplit (s sep : String) : List String :=
  (pySplitGo sep.data s.data.length s.data).map String.mk

/-- The fixed system instruction `SYSTEM_TEMPLATE` of pipeline.py lines
7-16. -/
def SYSTEM_TEMPLATE : String :=
  "\nYou are a Customer Support Chatbot for Everstorm Outfitters.\nUse only the information in <context> to answer.\n\nRules:\n1) Use ONLY the provided <context> to answer.\n2) If the answer is not in the context, say:\n   \"I don\u0027t know based on the retrieved documents.\"\n3) Be concise and accurate. Prefer quoting key phrases from the context.\n"

/-- `RAGPipeline._build_prompt` (pipeline.py lines 33-46): system
instruction, blank-line-joined context block, user question. -/
def build_prompt (question : String) (docs : List Document) : String :=
  let context := String.intercalate "\n\n" (docs.map (fun d => d.page_content))
  SYSTEM_TEMPLATE ++ "\n\n<context>\n" ++ context ++ "\n</context>\n\nUser question: "
    ++ question ++ "\n"

/-- `settings.top_k` from config.py line 21. -/
def settings_top_k : Int := 5

/-- The resolution `k = top_k or settings.top_k` of pipeline.py line 63:
Python `or` takes the default when `top_k` is `None` or falsy (i.e. `0`). -/
def resolve_k (top_k : Option Int) (default_k : Int) : Int :=
  match top_k with
  | none => default_k
  | some v => if v = 0 then default_k else v

/-- `RAGPipeline.ask` (pipeline.py lines 48-91): resolve `k`, retrieve,
build the prompt, call the generation model, and package the answer with
metadata whose source texts are truncated to the first 300 characters. -/
def ask (llm : String → String) (search : String → Int → List Document)
    (question : String) (top_k : Option Int) (default_k : Int) : String × Meta :=
  let k := resolve_k top_k default_k
  let docs := search question k
  let prompt := build_prompt question docs
  let answer := llm prompt
  (answer,
   { num_sources := docs.length,
     sources := docs.map (fun d =>
       { page_content := pySlice d.page_content 300, metadata := d.metadata }) })

/-- `CritiqueResult` (evaluator.py lines 8-13). -/
structure CritiqueResult where
  cycle : Nat
  answer : String
  critique : Option String
  is_correct : Bool
deriving DecidableEq

/-- The dict returned by `InlineLLMJudge.evaluate_answer` on every terminal
path (evaluator.py lines 96-101, 107-120, 125-130). -/
structure JudgeResult where
  answer : String
  label : String
  cycles : List CritiqueResult
  sources : List Source
deriving DecidableEq

/-- One external collaborator invocation, recorded in order of occurrence:
the single `self.rag.ask` call or one `self.judge_llm.invoke(critic_prompt)`
call. -/
inductive ExtCall where
  | askCall (question : String)
  | judgeCall (prompt : String)
deriving DecidableEq

/-- `InlineLLMJudge._build_critic_prompt` (evaluator.py lines 26-44). -/
def build_critic_prompt (base_context answer : String) : String :=
  "\n        You are an impartial judge. \n        Evaluate whether the assistant\u2019s answer correctly fulfills the user\u2019s request in context.\n\n        Reply with exactly one of these labels\u2014no extra text:\n\n        CORRECT\n        HALLUCINATION\n        INCOMPLETE\n\n        === CONTEXT ===\n        "
    ++ base_context
    ++ "\n\n        === ASSISTANT ANSWER ===\n        "
    ++ answer
    ++ "\n\n        LABEL:\n        "

/-- Normalization of the raw judge output (evaluator.py lines 72-75):
trim, uppercase, and if the marker "LABEL:" occurs keep only the trimmed
text after its last occurrence. -/
def normalize_feedback (raw : String) : String :=
  let feedback := pyUpper (pyStrip raw)
  if strContainsSub feedback "LABEL:" then
    pyStrip ((pySplit feedback "LABEL:").getLastD "")
  else feedback

/-- The `is_correct` test of evaluator.py lines 80-82: exact equality with
"CORRECT", or containment of "CORRECT" with neither "HALLUCINATION" nor
"INCOMPLETE" contained. -/
def classify_correct (feedback : String) : Bool :=
  (feedback == "CORRECT") ||
    (strContainsSub feedback "CORRECT" && !strContainsSub feedback "HALLUCINATION"
      && !strContainsSub feedback "INCOMPLETE")

/-- The `is_halluc` test of evaluator.py line 83: strict equality. -/
def classify_halluc (feedback : String) : Bool := feedback == "HALLUCINATION"

/-- The `is_incomplete` test of evaluator.py line 84: strict equality. -/
def classify_incomplete (feedback : String) : Bool := feedback == "INCOMPLETE"

/-- The `for cycle in range(1, max_cycles + 1)` loop body of
`InlineLLMJudge.evaluate_answer` (evaluator.py lines 65-130), as a fuel
recursion: `fuel` is the number of iterations remaining
(`max_cycles - cycle + 1`), so fuel `0` is loop exhaustion, which returns
the MAX_CYCLES result of lines 125-130.  The second component is the trace
of judge-model invocations this call performs. -/
def judgeLoop (judge : Nat → String) (base_context answer : String)
    (sources : List Source) (cycle : Nat) (fuel : Nat)
    (cycles : List CritiqueResult) (halluc_count incomplete_count : Nat) :
    JudgeResult × List ExtCall :=
  match fuel with
  | 0 =>
    ({ answer := answer, label := "MAX_CYCLES", cycles := cycles, sources := sources }, [])
  | fuel + 1 =>
    let critic_prompt := build_critic_prompt base_context answer
    let feedback := normalize_feedback (judge cycle)
    let is_correct := classify_correct feedback
    let is_halluc := classify_halluc feedback
    let is_incomplete := classify_incomplete feedback
    let cycles := cycles ++
      [{ cycle := cycle, answer := answer,
         critique := if is_correct then none else some feedback,
         is_correct := is_correct }]
    if is_correct then
      ({ answer := answer, label := "CORRECT", cycles := cycles, sources := sources },
       [ExtCall.judgeCall critic_prompt])
    else
      let halluc_count := if is_halluc then halluc_count + 1 else 0
      let incomplete_count := if is_incomplete then incomplete_count + 1 else 0
      if 2 ≤ halluc_count then
        ({ answer := answer, label := "HALLUCINATION", cycles := cycles, sources := sources },
         [ExtCall.judgeCall critic_prompt])
      else if 2 ≤ incomplete_count then
        ({ answer := answer, label := "INCOMPLETE", cycles := cycles, sources := sources },
         [ExtCall.judgeCall critic_prompt])
      else
        let rest := judgeLoop judge base_context answer sources (cycle + 1) fuel cycles
          halluc_count incomplete_count
        (rest.1, ExtCall.judgeCall critic_prompt :: rest.2)

/-- `InlineLLMJudge.evaluate_answer` (evaluator.py lines 46-130): one
`RAGPipeline.ask` call with `top_k=None` (line 57-62), `base_context`
joined from the `page_content` fields of `meta["sources"]` (line 63), then
the judge loop.  Returns the terminal result and the ordered trace of
external calls. -/
def evaluate_answer (llm : String → String) (search : String → Int → List Document)
    (judge : Nat → String) (max_cycles : Nat) (default_k : Int) (question : String) :
    JudgeResult × List ExtCall :=
  let am := ask llm search question none default_k
  let answer := am.1
  let meta := am.2
  let base_context := String.intercalate "\n\n" (meta.sources.map (fun s => s.page_content))
  let r := judgeLoop judge base_context answer meta.sources 1 max_cycles [] 0 0
  (r.1, ExtCall.askCall question :: r.2)

/-- The blank-line-separated concatenation of the FULL texts of the
retrieved passages (what the spec says the judge context is). -/
def fullContext (docs : List Document) : String :=
  String.intercalate "\n\n" (docs.map (fun d => d.page_content))

/-- The blank-line-separated concatenation of the TRUNCATED (300-character
preview) texts of the retrieved passages (what evaluator.py line 63
actually joins, since `meta["sources"]` holds the truncated copies). -/
def truncContext (docs : List Document) : String :=
  String.intercalate "\n\n" (docs.map (fun d => pySlice d.page_content 300))

/-- The prompts of the judge-model invocations in a trace, in order. -/
def judgePrompts (trace : List ExtCall) : List String :=
  trace.filterMap (fun c =>
    match c with
    | ExtCall.judgeCall p => some p
    | ExtCall.askCall _ => none)

/-- Whether a trace entry is a retrieval-pipeline (`ask`) invocation. -/
def isAskCall (c : ExtCall) : Bool :=
  match c with
  | ExtCall.askCall _ => true
  | ExtCall.judgeCall _ => false

/-- Invariant bundle for one `judgeLoop` call: `new` is the list of cycle
records this call appends to the accumulator `acc`, and the bundle relates
the output `out` of the call to `new`. -/
structure LoopNewSpec (judge : Nat → String) (ctx ans : String) (srcs : List Source)
    (cycleStart fuel : Nat) (acc : List CritiqueResult)
    (out : JudgeResult × List ExtCall) (new : List CritiqueResult) : Prop where
  cycles_eq : out.1.cycles = acc ++ new
  answer_eq : out.1.answer = ans
  sources_eq : out.1.sources = srcs
  trace_eq : out.2 = List.replicate new.length (ExtCall.judgeCall (build_critic_prompt ctx ans))
  len_le : new.length ≤ fuel
  len_pos : 1 ≤ fuel → 1 ≤ new.length
  idx_eq : new.map (fun r => r.cycle) = List.range' cycleStart new.length
  ans_all : ∀ r ∈ new, r.answer = ans
  crit_correct : ∀ r ∈ new, r.is_correct = true → r.critique = none
  crit_not : ∀ r ∈ new, r.is_correct = false →
    r.critique = some (normalize_feedback (judge r.cycle))
  correct_last : ∀ r ∈ new, r.is_correct = true → new.getLast? = some r
  label_correct_iff : out.1.label = "CORRECT" ↔
    new.getLast?.map (fun r => r.is_correct) = some true
  label_max : out.1.label = "MAX_CYCLES" →
    new.length = fuel ∧ ∀ r ∈ new, r.is_correct = false

/-! Concrete collaborators used to exercise the loop on specific judge
verdict sequences: a one-document retriever, a fixed generation model, and
judge oracles producing the verdict sequences the claims name. -/

def fixSearch : String → Int → List Document :=
  fun _ _ => [⟨"DOC ONE TEXT", [("source", "docs.pdf"), ("page", "1")]⟩]

def fixLlm : String → String := fun _ => "GENERATED ANSWER"

def judgeAlwaysHalluc : Nat → String := fun _ => "HALLUCINATION"

def judgeHallucIncHalluc : Nat → String :=
  fun n => if n = 2 then "INCOMPLETE" else "HALLUCINATION"

def judgeHallucJunkHalluc : Nat → String :=
  fun n => if n = 2 then "Hallucination detected" else "HALLUCINATION"

def judgeAlwaysCorrect : Nat → String := fun _ => "CORRECT"

/-- A retrieved passage of 301 characters, i.e. strictly longer than the
300-character preview limit. -/
def cexLongText : String := String.mk ('b' :: List.replicate 300 'a')

def cexSearch : String → Int → List Document :=
  fun _ _ => [⟨cexLongText, [("source", "long.pdf")]⟩]

def cexLlm : String → String := fun _ => "ANSWER"

def cexJudge : Nat → String := fun _ => "CORRECT"

/-- A retriever that finds nothing. -/
def emptySearch : String → Int → List Document := fun _ _ => []

/-- The containment scanner decides the infix relation: `listContains sep l`
is true exactly when `sep` occurs contiguously in `l`. -/
theorem listContains_infix_iff (sep : List Char) (l : List Char) :
    listContains sep l = true ↔ sep <:+: l := by
  induction l with
  | nil =>
    show sep.isEmpty = true ↔ _
    rw [List.isEmpty_iff, List.infix_nil]
  | cons c rest ih =>
    show (sep.isPrefixOf (c :: rest) || listContains sep rest) = true ↔ _
    rw [Bool.or_eq_true, List.isPrefixOf_iff_prefix, ih, List.infix_cons_iff]

/-! Step equations for `judgeLoop`, one per terminal branch of the loop
body plus the continuation branch. -/

theorem judgeLoop_zero (judge : Nat → String) (ctx ans : String) (srcs : List Source)
    (c : Nat) (acc : List CritiqueResult) (h i : Nat) :
    judgeLoop judge ctx ans srcs c 0 acc h i =
      ({ answer := ans, label := "MAX_CYCLES", cycles := acc, sources := srcs }, []) := rfl

theorem judgeLoop_succ_of_correct (judge : Nat → String) (ctx ans : String)
    (srcs : List Source) (c fuel : Nat) (acc : List CritiqueResult) (h i : Nat)
    (hc : classify_correct (normalize_feedback (judge c)) = true) :
    judgeLoop judge ctx ans srcs c (fuel + 1) acc h i =
      ({ answer := ans, label := "CORRECT",
         cycles := acc ++ [⟨c, ans, none, true⟩],
         sources := srcs },
       [ExtCall.judgeCall (build_critic_prompt ctx ans)]) := by
  simp [judgeLoop, hc]

theorem judgeLoop_succ_of_halluc (judge : Nat → String) (ctx ans : String)
    (srcs : List Source) (c fuel : Nat) (acc : List CritiqueResult) (h i : Nat)
    (hc : classify_correct (normalize_feedback (judge c)) = false)
    (hh : 2 ≤ (if classify_halluc (normalize_feedback (judge c)) then h + 1 else 0)) :
    judgeLoop judge ctx ans srcs c (fuel + 1) acc h i =
      ({ answer := ans, label := "HALLUCINATION",
         cycles := acc ++ [⟨c, ans, some (normalize_feedback (judge c)), false⟩],
         sources := srcs },
       [ExtCall.judgeCall (build_critic_prompt ctx ans)]) := by
  simp [judgeLoop, hc, hh]

theorem judgeLoop_succ_of_incomplete (judge : Nat → String) (ctx ans : String)
    (srcs : List Source) (c fuel : Nat) (acc : List CritiqueResult) (h i : Nat)
    (hc : classify_correct (normalize_feedback (judge c)) = false)
    (hh : ¬ 2 ≤ (if classify_halluc (normalize_feedback (judge c)) then h + 1 else 0))
    (hi : 2 ≤ (if classify_incomplete (normalize_feedback (judge c)) then i + 1 else 0)) :
    judgeLoop judge ctx ans srcs c (fuel + 1) acc h i =
      ({ answer := ans, label := "INCOMPLETE",
         cycles := acc ++ [⟨c, ans, some (normalize_feedback (judge c)), false⟩],
         sources := srcs },
       [ExtCall.judgeCall (build_critic_prompt ctx ans)]) := by
  simp [judgeLoop, hc, hh, hi]

theorem judgeLoop_succ_of_continue (judge : Nat → String) (ctx ans : String)
    (srcs : List Source) (c fuel : Nat) (acc : List CritiqueResult) (h i : Nat)
    (hc : classify_correct (normalize_feedback (judge c)) = false)
    (hh : ¬ 2 ≤ (if classify_halluc (normalize_feedback (judge c)) then h + 1 else 0))
    (hi : ¬ 2 ≤ (if classify_incomplete (normalize_feedback (judge c)) then i + 1 else 0)) :
    judgeLoop judge ctx ans srcs c (fuel + 1) acc h i =
      ((judgeLoop judge ctx ans srcs (c + 1) fuel
          (acc ++ [⟨c, ans, some (normalize_feedback (judge c)), false⟩])
          (if classify_halluc (normalize_feedback (judge c)) then h + 1 else 0)
          (if classify_incomplete (normalize_feedback (judge c)) then i + 1 else 0)).1,
       ExtCall.judgeCall (build_critic_prompt ctx ans) ::
         (judgeLoop judge ctx ans srcs (c + 1) fuel
          (acc ++ [⟨c, ans, some (normalize_feedback (judge c)), false⟩])
          (if classify_halluc (normalize_feedback (judge c)) then h + 1 else 0)
          (if classify_incomplete (normalize_feedback (judge c)) then i + 1 else 0)).2) := by
  simp [judgeLoop, hc, hh, hi]

/-- Auxiliary: `getLast?` of a cons ignores the head when the tail is
nonempty. -/
theorem getLast?_cons_ne_nil {α : Type} (a : α) {l : List α} (hl : l ≠ []) :
    (a :: l).getLast? = l.getLast? := by
  cases l with
  | nil => exact absurd rfl hl
  | cons b bs => rw [List.getLast?_cons_cons]

/-- Master invariant of the judge loop, by induction on the remaining
fuel. -/
theorem judgeLoop_spec (judge : Nat → String) (ctx ans : String) (srcs : List Source) :
    ∀ (fuel cycleStart : Nat) (acc : List CritiqueResult) (h i : Nat),
      ∃ new, LoopNewSpec judge ctx ans srcs cycleStart fuel acc
        (judgeLoop judge ctx ans srcs cycleStart fuel acc h i) new := by
  intro fuel
  induction fuel with
  | zero =>
    intro cycleStart acc h i
    refine ⟨[], ?_⟩
    rw [judgeLoop_zero]
    exact {
      cycles_eq := by simp
      answer_eq := rfl
      sources_eq := rfl
      trace_eq := rfl
      len_le := le_refl 0
      len_pos := by omega
      idx_eq := by simp
      ans_all := by simp
      crit_correct := by simp
      crit_not := by simp
      correct_last := by simp
      label_correct_iff := by
        constructor
        · intro hlab
          exact absurd (show ("MAX_CYCLES" : String) = "CORRECT" from hlab) (by decide)
        · intro hlast
          simp at hlast
      label_max := fun _ => ⟨rfl, by simp⟩ }
  | succ fuel IH =>
    intro c acc h i
    by_cases hc : classify_correct (normalize_feedback (judge c)) = true
    · refine ⟨[⟨c, ans, none, true⟩], ?_⟩
      rw [judgeLoop_succ_of_correct judge ctx ans srcs c fuel acc h i hc]
      exact {
        cycles_eq := rfl
        answer_eq := rfl
        sources_eq := rfl
        trace_eq := rfl
        len_le := by simp
        len_pos := fun _ => by simp
        idx_eq := by simp [List.range'_succ]
        ans_all := by simp
        crit_correct := by simp
        crit_not := by simp
        correct_last := by simp
        label_correct_iff := by simp
        label_max := fun hlab =>
          absurd (show ("CORRECT" : String) = "MAX_CYCLES" from hlab) (by decide) }
    · rw [Bool.not_eq_true] at hc
      by_cases hh : 2 ≤ (if classify_halluc (normalize_feedback (judge c)) then h + 1 else 0)
      · refine ⟨[⟨c, ans, some (normalize_feedback (judge c)), false⟩], ?_⟩
        rw [judgeLoop_succ_of_halluc judge ctx ans srcs c fuel acc h i hc hh]
        exact {
          cycles_eq := rfl
          answer_eq := rfl
          sources_eq := rfl
          trace_eq := rfl
          len_le := by simp
          len_pos := fun _ => by simp
          idx_eq := by simp [List.range'_succ]
          ans_all := by simp
          crit_correct := by simp
          crit_not := by simp
          correct_last := by simp
          label_correct_iff := by
            constructor
            · intro hlab
              exact absurd (show ("HALLUCINATION" : String) = "CORRECT" from hlab) (by decide)
            · intro hlast
              simp at hlast
          label_max := fun hlab =>
            absurd (show ("HALLUCINATION" : String) = "MAX_CYCLES" from hlab) (by decide) }
      · by_cases hi2 : 2 ≤ (if classify_incomplete (normalize_feedback (judge c)) then i + 1 else 0)
        · refine ⟨[⟨c, ans, some (normalize_feedback (judge c)), false⟩], ?_⟩
          rw [judgeLoop_succ_of_incomplete judge ctx ans srcs c fuel acc h i hc hh hi2]
          exact {
            cycles_eq := rfl
            answer_eq := rfl
            sources_eq := rfl
            trace_eq := rfl
            len_le := by simp
            len_pos := fun _ => by simp
            idx_eq := by simp [List.range'_succ]
            ans_all := by simp
            crit_correct := by simp
            crit_not := by simp
            correct_last := by simp
            label_correct_iff := by
              constructor
              · intro hlab
                exact absurd (show ("INCOMPLETE" : String) = "CORRECT" from hlab) (by decide)
              · intro hlast
                simp at hlast
            label_max := fun hlab =>
              absurd (show ("INCOMPLETE" : String) = "MAX_CYCLES" from hlab) (by decide) }
        · obtain ⟨new', hs⟩ := IH (c + 1)
            (acc ++ [⟨c, ans, some (normalize_feedback (judge c)), false⟩])
            (if classify_halluc (normalize_feedback (judge c)) then h + 1 else 0)
            (if classify_incomplete (normalize_feedback (judge c)) then i + 1 else 0)
          refine ⟨⟨c, ans, some (normalize_feedback (judge c)), false⟩ :: new', ?_⟩
          rw [judgeLoop_succ_of_continue judge ctx ans srcs c fuel acc h i hc hh hi2]
          exact {
            cycles_eq := by
              rw [hs.cycles_eq]
              simp
            answer_eq := hs.answer_eq
            sources_eq := hs.sources_eq
            trace_eq := by
              rw [hs.trace_eq]
              simp [List.replicate_succ]
            len_le := by
              have := hs.len_le
              simpa using Nat.succ_le_succ this
            len_pos := fun _ => by simp
            idx_eq := by
              simp only [List.map_cons, List.length_cons, List.range'_succ]
              rw [hs.idx_eq]
            ans_all := by
              intro r hr
              rcases List.mem_cons.mp hr with hr0 | hr'
              · rw [hr0]
              · exact hs.ans_all r hr'
            crit_correct := by
              intro r hr hcor
              rcases List.mem_cons.mp hr with hr0 | hr'
              · rw [hr0] at hcor
                simp at hcor
              · exact hs.crit_correct r hr' hcor
            crit_not := by
              intro r hr hncor
              rcases List.mem_cons.mp hr with hr0 | hr'
              · rw [hr0]
              · exact hs.crit_not r hr' hncor
            correct_last := by
              intro r hr hcor
              rcases List.mem_cons.mp hr with hr0 | hr'
              · rw [hr0] at hcor
                simp at hcor
              · have hne : new' ≠ [] := List.ne_nil_of_mem hr'
                rw [getLast?_cons_ne_nil _ hne]
                exact hs.correct_last r hr' hcor
            label_correct_iff := by
              by_cases hne : new' = []
              · constructor
                · intro hlab
                  have hbase := hs.label_correct_iff.mp hlab
                  rw [hne] at hbase
                  simp at hbase
                · intro hlast
                  rw [hne] at hlast
                  simp at hlast
              · rw [getLast?_cons_ne_nil _ hne]
                exact hs.label_correct_iff
            label_max := by
              intro hlab
              obtain ⟨hlen, hall⟩ := hs.label_max hlab
              constructor
              · simp [hlen]
              · intro r hr
                rcases List.mem_cons.mp hr with hr0 | hr'
                · rw [hr0]
                · exact hall r hr' }

/-- Unfolding of `evaluate_answer` into its single `ask` call and the judge
loop over the answer and (truncated) sources of that call. -/
theorem evaluate_answer_eq (llm : String → String) (search : String → Int → List Document)
    (judge : Nat → String) (max_cycles : Nat) (default_k : Int) (question : String) :
    evaluate_answer llm search judge max_cycles default_k question =
      ((judgeLoop judge
          (String.intercalate "\n\n"
            ((ask llm search question none default_k).2.sources.map (fun s => s.page_content)))
          (ask llm search question none default_k).1
          (ask llm search question none default_k).2.sources 1 max_cycles [] 0 0).1,
       ExtCall.askCall question ::
         (judgeLoop judge
          (String.intercalate "\n\n"
            ((ask llm search question none default_k).2.sources.map (fun s => s.page_content)))
          (ask llm search question none default_k).1
          (ask llm search question none default_k).2.sources 1 max_cycles [] 0 0).2) := rfl

/-- Auxiliary: a string is a substring of any concatenation that has it as a
middle segment. -/
theorem strContainsSub_middle (a mid b : String) :
    strContainsSub (a ++ (mid ++ b)) mid = true := by
  unfold strContainsSub
  rw [listContains_infix_iff, String.data_append, String.data_append]
  exact ⟨a.data, b.data, List.append_assoc a.data mid.data b.data⟩

/-- Auxiliary: the critique prompt contains its context block verbatim. -/
theorem critic_prompt_contains_context (base_context answer : String) :
    strContainsSub (build_critic_prompt base_context answer) base_context = true := by
  have h : build_critic_prompt base_context answer =
      "\n        You are an impartial judge. \n        Evaluate whether the assistant\u2019s answer correctly fulfills the user\u2019s request in context.\n\n        Reply with exactly one of these labels\u2014no extra text:\n\n        CORRECT\n        HALLUCINATION\n        INCOMPLETE\n\n        === CONTEXT ===\n        "
        ++ (base_context ++ ("\n\n        === ASSISTANT ANSWER ===\n        "
        ++ (answer ++ "\n\n        LABEL:\n        "))) := by
    unfold build_critic_prompt
    simp only [String.append_assoc]
  rw [h]
  exact strContainsSub_middle _ _ _

/-- Auxiliary: filtering a run of judge calls for ask calls leaves nothing. -/
theorem filter_isAskCall_replicate (n : Nat) (p : String) :
    List.filter isAskCall (List.replicate n (ExtCall.judgeCall p)) = [] := by
  induction n with
  | zero => rfl
  | succ n ih =>
    rw [List.replicate_succ]
    rw [List.filter_cons_of_neg (by simp [isAskCall])]
    exact ih

/-- Auxiliary: `pySlice` is the identity on strings no longer than the
limit. -/
theorem pySlice_of_le (s : String) (n : Nat) (h : s.length ≤ n) : pySlice s n = s := by
  unfold pySlice
  rw [List.take_of_length_le h]

/-- Auxiliary: the length of a slice is the minimum of the limit and the
original length. -/
theorem pySlice_length (s : String) (n : Nat) : (pySlice s n).length = min n s.length := by
  unfold pySlice
  show (s.data.take n).length = min n s.data.length
  rw [List.length_take]



/-- C2: the verdict classification normalizes the raw judge output to
uppercase trimmed text, keeps only the trimmed substring after the last
"LABEL:" occurrence when that marker occurs, classifies CORRECT exactly
when the text equals "CORRECT" or contains "CORRECT" while containing
neither "HALLUCINATION" nor "INCOMPLETE", classifies HALLUCINATION and
INCOMPLETE only on exact equality with those tokens; hence
"CORRECT, the answer is well-grounded" is correct while
"HALLUCINATION DETECTED" is neither correct nor a hallucination verdict. -/
theorem C2_verdict_classification :
    (∀ feedback : String, classify_halluc feedback = (feedback == "HALLUCINATION")) ∧
    (∀ feedback : String, classify_incomplete feedback = (feedback == "INCOMPLETE")) ∧
    (∀ feedback : String, classify_correct feedback =
      ((feedback == "CORRECT") ||
        (strContainsSub feedback "CORRECT" && !strContainsSub feedback "HALLUCINATION"
          && !strContainsSub feedback "INCOMPLETE"))) ∧
    (∀ raw : String, normalize_feedback raw =
      (if strContainsSub (pyUpper (pyStrip raw)) "LABEL:" then
        pyStrip ((pySplit (pyUpper (pyStrip raw)) "LABEL:").getLastD "")
      else pyUpper (pyStrip raw))) ∧
    classify_correct (normalize_feedback "Correct, the answer is well-grounded") = true ∧
    classify_halluc (normalize_feedback "Correct, the answer is well-grounded") = false ∧
    classify_incomplete (normalize_feedback "Correct, the answer is well-grounded") = false ∧
    classify_correct (normalize_feedback "HALLUCINATION DETECTED") = false ∧
    classify_halluc (normalize_feedback "HALLUCINATION DETECTED") = false ∧
    classify_incomplete (normalize_feedback "HALLUCINATION DETECTED") = false ∧
    normalize_feedback "  reasoning LABEL: WRONG then label:  hallucination  " =
      "HALLUCINATION" ∧
    classify_halluc
      (normalize_feedback "  reasoning LABEL: WRONG then label:  hallucination  ") = true := by
  refine ⟨fun _ => rfl, fun _ => rfl, fun _ => rfl, fun _ => rfl,
    ?_, ?_, ?_, ?_, ?_, ?_, ?_, ?_⟩ <;> decide

/-- C3: the streak counters count consecutive verdicts only, resetting on
any other verdict (including unrecognized ones, which increment neither):
with `max_cycles = 3`, HALLUCINATION twice terminates at cycle 2 with label
HALLUCINATION and 2 records; HALLUCINATION, INCOMPLETE, HALLUCINATION runs
all 3 cycles and ends MAX_CYCLES with 3 records; and an unrecognized
verdict between two HALLUCINATIONs likewise prevents early termination. -/
theorem C3_streaks_consecutive :
    ((evaluate_answer fixLlm fixSearch judgeAlwaysHalluc 3 5 "q").1.label =
        "HALLUCINATION" ∧
      (evaluate_answer fixLlm fixSearch judgeAlwaysHalluc 3 5 "q").1.cycles.length = 2) ∧
    ((evaluate_answer fixLlm fixSearch judgeHallucIncHalluc 3 5 "q").1.label =
        "MAX_CYCLES" ∧
      (evaluate_answer fixLlm fixSearch judgeHallucIncHalluc 3 5 "q").1.cycles.length = 3) ∧
    ((evaluate_answer fixLlm fixSearch judgeHallucJunkHalluc 3 5 "q").1.label =
        "MAX_CYCLES" ∧
      (evaluate_answer fixLlm fixSearch judgeHallucJunkHalluc 3 5 "q").1.cycles.length = 3) := by
  refine ⟨⟨?_, ?_⟩, ⟨?_, ?_⟩, ⟨?_, ?_⟩⟩ <;> decide

/-- The loop invariants instantiated at the top-level `evaluate_answer`
call: accumulator empty, first cycle index 1, fuel `max_cycles`, and the
judge-call trace is the tail of the full trace (after the initial
retrieval call). -/
theorem evaluate_answer_spec (llm : String → String)
    (search : String → Int → List Document) (judge : Nat → String)
    (max_cycles : Nat) (default_k : Int) (question : String) :
    (∃ new, LoopNewSpec judge
      (String.intercalate "\n\n"
        ((ask llm search question none default_k).2.sources.map (fun s => s.page_content)))
      (ask llm search question none default_k).1
      (ask llm search question none default_k).2.sources
      1 max_cycles []
      ((evaluate_answer llm search judge max_cycles default_k question).1,
       (evaluate_answer llm search judge max_cycles default_k question).2.tail) new) ∧
    (evaluate_answer llm search judge max_cycles default_k question).2 =
      ExtCall.askCall question ::
        (evaluate_answer llm search judge max_cycles default_k question).2.tail := by
  constructor
  · obtain ⟨new, hs⟩ := judgeLoop_spec judge
      (String.intercalate "\n\n"
        ((ask llm search question none default_k).2.sources.map (fun s => s.page_content)))
      (ask llm search question none default_k).1
      (ask llm search question none default_k).2.sources
      max_cycles 1 [] 0 0
    exact ⟨new, hs⟩
  · rfl

/-- C4: the run ends with label CORRECT exactly when its last cycle record
is marked correct; a correct cycle record has no critique while every
not-correct record keeps the normalized verdict text as its critique; a
correct record can only be the last one (CORRECT terminates the loop
immediately); and concretely a CORRECT verdict on cycle 1 gives label
CORRECT with exactly one record whose critique is absent. -/
theorem C4_label_iff_last_correct (llm : String → String)
    (search : String → Int → List Document) (judge : Nat → String)
    (max_cycles : Nat) (default_k : Int) (question : String) :
    ((evaluate_answer llm search judge max_cycles default_k question).1.label = "CORRECT" ↔
      (evaluate_answer llm search judge max_cycles default_k question).1.cycles.getLast?.map
        (fun r => r.is_correct) = some true) ∧
    ((evaluate_answer llm search judge max_cycles default_k question).1.cycles.all
      (fun r => r.critique.isNone == r.is_correct) = true) ∧
    ((evaluate_answer llm search judge max_cycles default_k question).1.cycles.all
      (fun r => r.is_correct ||
        (r.critique == some (normalize_feedback (judge r.cycle)))) = true) ∧
    ((evaluate_answer llm search judge max_cycles default_k question).1.cycles.all
      (fun r => !r.is_correct ||
        ((evaluate_answer llm search judge max_cycles default_k question).1.cycles.getLast?
          == some r)) = true) ∧
    (evaluate_answer fixLlm fixSearch judgeAlwaysCorrect 3 5 "q").1.label = "CORRECT" ∧
    (evaluate_answer fixLlm fixSearch judgeAlwaysCorrect 3 5 "q").1.cycles.map
      (fun r => r.critique) = [none] := by
  obtain ⟨⟨new, hs⟩, htr⟩ :=
    evaluate_answer_spec llm search judge max_cycles default_k question
  have hcyc : (evaluate_answer llm search judge max_cycles default_k question).1.cycles
      = new := by
    have := hs.cycles_eq
    simpa using this
  refine ⟨?_, ?_, ?_, ?_, by decide, by decide⟩
  · rw [hcyc]
    exact hs.label_correct_iff
  · rw [hcyc, List.all_eq_true]
    intro r hr
    cases hcor : r.is_correct with
    | false =>
      have hcr := hs.crit_not r hr hcor
      simp [hcr]
    | true =>
      have hcr := hs.crit_correct r hr hcor
      simp [hcr]
  · rw [hcyc, List.all_eq_true]
    intro r hr
    cases hcor : r.is_correct with
    | false =>
      have hcr := hs.crit_not r hr hcor
      simp [hcr]
    | true => simp [hcor]
  · rw [hcyc, List.all_eq_true]
    intro r hr
    cases hcor : r.is_correct with
    | false => simp [hcor]
    | true =>
      have hlast := hs.correct_last r hr hcor
      simp [hcor, hlast]

/-- C5: per invocation the retrieval pipeline is consulted exactly once,
as the first external call; the same answer string appears in every cycle
record and in the final result, and the final sources are exactly the
sequence captured from that single initial retrieval, on every terminal
path (the judge oracle and cycle budget are universally quantified). -/
theorem C5_single_retrieval (llm : String → String)
    (search : String → Int → List Document) (judge : Nat → String)
    (max_cycles : Nat) (default_k : Int) (question : String) :
    ((evaluate_answer llm search judge max_cycles default_k question).2.head? =
      some (ExtCall.askCall question)) ∧
    (((evaluate_answer llm search judge max_cycles default_k question).2.filter
      isAskCall).length = 1) ∧
    ((evaluate_answer llm search judge max_cycles default_k question).1.answer =
      (ask llm search question none default_k).1) ∧
    ((evaluate_answer llm search judge max_cycles default_k question).1.cycles.all
      (fun r => r.answer == (ask llm search question none default_k).1) = true) ∧
    ((evaluate_answer llm search judge max_cycles default_k question).1.sources =
      (ask llm search question none default_k).2.sources) := by
  obtain ⟨⟨new, hs⟩, htr⟩ :=
    evaluate_answer_spec llm search judge max_cycles default_k question
  have hcyc : (evaluate_answer llm search judge max_cycles default_k question).1.cycles
      = new := by
    have := hs.cycles_eq
    simpa using this
  have htail : (evaluate_answer llm search judge max_cycles default_k question).2.tail =
      List.replicate new.length
        (ExtCall.judgeCall (build_critic_prompt
          (String.intercalate "\n\n"
            ((ask llm search question none default_k).2.sources.map (fun s => s.page_content)))
          (ask llm search question none default_k).1)) := hs.trace_eq
  refine ⟨?_, ?_, hs.answer_eq, ?_, hs.sources_eq⟩
  · rw [htr]
    exact List.head?_cons
  · rw [htr, List.filter_cons_of_pos (by rfl), htail, filter_isAskCall_replicate]
    rfl
  · rw [hcyc, List.all_eq_true]
    intro r hr
    have := hs.ans_all r hr
    simp [this]

/-- C6: in every run with a positive cycle budget the cycle indices of the
returned records are exactly 1, 2, ..., n for some n between 1 and
`max_cycles`: strictly increasing from 1 with no gaps. -/
theorem C6_cycle_indices (llm : String → String)
    (search : String → Int → List Document) (judge : Nat → String)
    (max_cycles : Nat) (default_k : Int) (question : String)
    (hpos : 1 ≤ max_cycles) :
    ((evaluate_answer llm search judge max_cycles default_k question).1.cycles.map
      (fun r => r.cycle) =
      List.range' 1
        (evaluate_answer llm search judge max_cycles default_k question).1.cycles.length) ∧
    1 ≤ (evaluate_answer llm search judge max_cycles default_k question).1.cycles.length ∧
    (evaluate_answer llm search judge max_cycles default_k question).1.cycles.length ≤
      max_cycles := by
  obtain ⟨⟨new, hs⟩, htr⟩ :=
    evaluate_answer_spec llm search judge max_cycles default_k question
  have hcyc : (evaluate_answer llm search judge max_cycles default_k question).1.cycles
      = new := by
    have := hs.cycles_eq
    simpa using this
  rw [hcyc]
  exact ⟨hs.idx_eq, hs.len_pos hpos, hs.len_le⟩

/-- Witness for C6 at a concrete run: `max_cycles = 3` is positive, and the
two-cycle HALLUCINATION run has indices `[1, 2]`. -/
theorem C6_cycle_indices_witness :
    ((evaluate_answer fixLlm fixSearch judgeAlwaysHalluc 3 5 "q").1.cycles.map
      (fun r => r.cycle) =
      List.range' 1
        (evaluate_answer fixLlm fixSearch judgeAlwaysHalluc 3 5 "q").1.cycles.length) ∧
    1 ≤ (evaluate_answer fixLlm fixSearch judgeAlwaysHalluc 3 5 "q").1.cycles.length ∧
    (evaluate_answer fixLlm fixSearch judgeAlwaysHalluc 3 5 "q").1.cycles.length ≤ 3 :=
  C6_cycle_indices fixLlm fixSearch judgeAlwaysHalluc 3 5 "q" (by decide)

/-- Auxiliary: pairing each stored source with the document it came from,
the stored text is the 300-character slice: unchanged when the document
text has at most 300 characters, and exactly the first 300 characters
(length 300) when it is longer; metadata is unchanged. -/
theorem trunc_zip_all (docs : List Document) :
    ((docs.map (fun d =>
        ({ page_content := pySlice d.page_content 300, metadata := d.metadata } : Source))).zip
      docs).all
      (fun sd =>
        (sd.1.metadata == sd.2.metadata) &&
        (if sd.2.page_content.length ≤ 300 then sd.1.page_content == sd.2.page_content
         else (sd.1.page_content == pySlice sd.2.page_content 300) &&
           (sd.1.page_content.length == 300))) = true := by
  induction docs with
  | nil => rfl
  | cons d ds ih =>
    rw [List.map_cons, List.zip_cons_cons, List.all_cons, ih, Bool.and_true]
    by_cases hle : d.page_content.length ≤ 300
    · simp [hle, pySlice_of_le d.page_content 300 hle]
    · have hlen : (pySlice d.page_content 300).length = 300 := by
        rw [pySlice_length]
        omega
      simp [hle, hlen]

/-- C7: each passage placed into the metadata sources by `ask` keeps its
metadata and order; its stored text is exactly the first 300 characters
when the passage text is longer than 300 characters and is unchanged
otherwise; and `num_sources` equals the number of retrieved passages. -/
theorem C7_source_truncation (llm : String → String)
    (search : String → Int → List Document) (question : String)
    (top_k : Option Int) (default_k : Int) :
    ((ask llm search question top_k default_k).2.num_sources =
      (search question (resolve_k top_k default_k)).length) ∧
    ((ask llm search question top_k default_k).2.sources =
      (search question (resolve_k top_k default_k)).map (fun d =>
        { page_content := pySlice d.page_content 300, metadata := d.metadata })) ∧
    (((ask llm search question top_k default_k).2.sources.zip
        (search question (resolve_k top_k default_k))).all
      (fun sd =>
        (sd.1.metadata == sd.2.metadata) &&
        (if sd.2.page_content.length ≤ 300 then sd.1.page_content == sd.2.page_content
         else (sd.1.page_content == pySlice sd.2.page_content 300) &&
           (sd.1.page_content.length == 300))) = true) :=
  ⟨rfl, rfl, trunc_zip_all (search question (resolve_k top_k default_k))⟩

/-- C8: when retrieval returns no passages, `ask` still returns a
well-formed result with zero sources, the generation model is called on
the prompt built from an empty passage list, and the context block of an
empty passage list is the empty string. -/
theorem C8_empty_retrieval (llm : String → String)
    (search : String → Int → List Document) (question : String)
    (top_k : Option Int) (default_k : Int)
    (hempty : search question (resolve_k top_k default_k) = []) :
    ((ask llm search question top_k default_k).2.num_sources = 0) ∧
    ((ask llm search question top_k default_k).2.sources = []) ∧
    ((ask llm search question top_k default_k).1 = llm (build_prompt question [])) ∧
    (fullContext ([] : List Document) = "") := by
  refine ⟨?_, ?_, ?_, rfl⟩ <;> simp [ask, hempty]

/-- Witness for C8 at a concrete empty retrieval. -/
theorem C8_empty_retrieval_witness :
    ((ask fixLlm emptySearch "q" none 5).2.num_sources = 0) ∧
    ((ask fixLlm emptySearch "q" none 5).2.sources = []) ∧
    ((ask fixLlm emptySearch "q" none 5).1 = fixLlm (build_prompt "q" [])) ∧
    (fullContext ([] : List Document) = "") :=
  C8_empty_retrieval fixLlm emptySearch "q" none 5 rfl

/-- C9: the configured default is 5; `top_k` absent or 0 resolves to the
configured default; a positive default means retrieval is never invoked
with `k = 0`; and `ask` with `top_k` absent consults the retriever at the
configured default of 5. -/
theorem C9_top_k_default (llm : String → String)
    (search : String → Int → List Document) (question : String) :
    settings_top_k = 5 ∧
    resolve_k none settings_top_k = settings_top_k ∧
    resolve_k (some 0) settings_top_k = settings_top_k ∧
    (∀ (top_k : Option Int) (dk : Int), 0 < dk → ¬ resolve_k top_k dk = 0) ∧
    ((ask llm search question none settings_top_k).2.num_sources =
      (search question 5).length) := by
  refine ⟨rfl, rfl, rfl, ?_, rfl⟩
  intro tk dk hdk
  cases tk with
  | none =>
    intro h
    have hdk0 : dk = 0 := h
    omega
  | some v =>
    by_cases hv : v = 0
    · intro h
      have hdk0 : dk = 0 := by
        rw [show resolve_k (some v) dk = dk from by rw [hv]; rfl] at h
        exact h
      omega
    · intro h
      have hv0 : v = 0 := by
        rw [show resolve_k (some v) dk = v from by
          show (if v = 0 then dk else v) = v
          rw [if_neg hv]] at h
        exact h
      exact hv hv0

/-- Witness for C9: with the positive default 5, the falsy override 0 does
not make retrieval run with `k = 0`. -/
theorem C9_top_k_default_witness : ¬ resolve_k (some 0) (5 : Int) = 0 :=
  (C9_top_k_default fixLlm fixSearch "q").2.2.2.1 (some 0) 5 (by decide)

/-- C10: a MAX_CYCLES outcome means the loop ran its full budget: exactly
`max_cycles` records, none marked correct, and each retaining the
normalized judge verdict of its cycle as critique. -/
theorem C10_max_cycles_shape (llm : String → String)
    (search : String → Int → List Document) (judge : Nat → String)
    (max_cycles : Nat) (default_k : Int) (question : String)
    (hmax : (evaluate_answer llm search judge max_cycles default_k question).1.label =
      "MAX_CYCLES") :
    ((evaluate_answer llm search judge max_cycles default_k question).1.cycles.length =
      max_cycles) ∧
    ((evaluate_answer llm search judge max_cycles default_k question).1.cycles.all
      (fun r => !r.is_correct) = true) ∧
    ((evaluate_answer llm search judge max_cycles default_k question).1.cycles.all
      (fun r => r.critique == some (normalize_feedback (judge r.cycle))) = true) := by
  obtain ⟨⟨new, hs⟩, htr⟩ :=
    evaluate_answer_spec llm search judge max_cycles default_k question
  have hcyc : (evaluate_answer llm search judge max_cycles default_k question).1.cycles
      = new := by
    have := hs.cycles_eq
    simpa using this
  obtain ⟨hlen, hall⟩ := hs.label_max hmax
  refine ⟨?_, ?_, ?_⟩
  · rw [hcyc]
    exact hlen
  · rw [hcyc, List.all_eq_true]
    intro r hr
    simp [hall r hr]
  · rw [hcyc, List.all_eq_true]
    intro r hr
    have := hs.crit_not r hr (hall r hr)
    simp [this]

/-- Witness for C10 at the HALLUCINATION, INCOMPLETE, HALLUCINATION run
with `max_cycles = 3`, whose label is MAX_CYCLES. -/
theorem C10_max_cycles_shape_witness :
    ((evaluate_answer fixLlm fixSearch judgeHallucIncHalluc 3 5 "q").1.cycles.length = 3) ∧
    ((evaluate_answer fixLlm fixSearch judgeHallucIncHalluc 3 5 "q").1.cycles.all
      (fun r => !r.is_correct) = true) ∧
    ((evaluate_answer fixLlm fixSearch judgeHallucIncHalluc 3 5 "q").1.cycles.all
      (fun r => r.critique ==
        some (normalize_feedback (judgeHallucIncHalluc r.cycle))) = true) :=
  C10_max_cycles_shape fixLlm fixSearch judgeHallucIncHalluc 3 5 "q" (by decide)

/-- Auxiliary: a leading retrieval call contributes no judge prompt. -/
theorem judgePrompts_cons_ask (q : String) (l : List ExtCall) :
    judgePrompts (ExtCall.askCall q :: l) = judgePrompts l := rfl

/-- Auxiliary: a leading judge call contributes its prompt. -/
theorem judgePrompts_cons_judge (p : String) (l : List ExtCall) :
    judgePrompts (ExtCall.judgeCall p :: l) = p :: judgePrompts l := rfl

/-- Auxiliary: the judge prompts of a run of identical judge calls. -/
theorem judgePrompts_replicate (n : Nat) (p : String) :
    judgePrompts (List.replicate n (ExtCall.judgeCall p)) = List.replicate n p := by
  induction n with
  | zero => rfl
  | succ n ih =>
    rw [List.replicate_succ, judgePrompts_cons_judge, ih, List.replicate_succ]

/-- C1 (amended): the critique prompt built in every judge cycle contains,
blank-line separated, the TRUNCATED stored text (the 300-character preview)
of each retrieved passage: the judge context is derived from the truncated
copies stored in the answer metadata, not from the originally retrieved
full passages. -/
theorem C1_truncated_context_in_critique_prompts (llm : String → String)
    (search : String → Int → List Document) (judge : Nat → String)
    (max_cycles : Nat) (default_k : Int) (question : String)
    (_hlong : (search question (resolve_k none default_k)).any
      (fun d => 300 < d.page_content.length) = true) :
    (judgePrompts (evaluate_answer llm search judge max_cycles default_k question).2).all
      (fun p => strContainsSub p
        (truncContext (search question (resolve_k none default_k)))) = true := by
  obtain ⟨⟨new, hs⟩, htr⟩ :=
    evaluate_answer_spec llm search judge max_cycles default_k question
  have htail : (evaluate_answer llm search judge max_cycles default_k question).2.tail =
      List.replicate new.length
        (ExtCall.judgeCall (build_critic_prompt
          (String.intercalate "\n\n"
            ((ask llm search question none default_k).2.sources.map (fun s => s.page_content)))
          (ask llm search question none default_k).1)) := hs.trace_eq
  rw [htr, judgePrompts_cons_ask, htail, judgePrompts_replicate, List.all_eq_true]
  intro p hp
  rw [List.eq_of_mem_replicate hp]
  have hbc : String.intercalate "\n\n"
      ((ask llm search question none default_k).2.sources.map (fun s => s.page_content)) =
      truncContext (search question (resolve_k none default_k)) := by
    show String.intercalate "\n\n"
      (((search question (resolve_k none default_k)).map (fun d =>
        ({ page_content := pySlice d.page_content 300, metadata := d.metadata } : Source))).map
        (fun s => s.page_content)) = _
    rw [List.map_map]
    rfl
  rw [hbc]
  exact critic_prompt_contains_context _ _

set_option maxRecDepth 8000 in
/-- Witness for C1 (amended) at a concrete retrieval whose single passage
has 301 characters, exceeding the 300-character preview. -/
theorem C1_truncated_context_witness :
    (judgePrompts (evaluate_answer cexLlm cexSearch cexJudge 1 5 "q").2).all
      (fun p => strContainsSub p (truncContext (cexSearch "q" (resolve_k none 5)))) = true :=
  C1_truncated_context_in_critique_prompts cexLlm cexSearch cexJudge 1 5 "q" (by decide)

set_option maxRecDepth 8000 in
/-- C1 counterexample: with a single retrieved passage of 301 characters
(strictly longer than the 300-character preview), the one critique prompt
of the run does NOT contain the full (untruncated) text of the retrieved
passage: the claim that the judge context is derived from the originally
retrieved passages fails on the code, which joins the truncated copies
stored in the answer metadata (evaluator.py line 63). -/
theorem C1_counterexample :
    ((cexSearch "q" (resolve_k none 5)).any
      (fun d => 300 < d.page_content.length) = true) ∧
    ((judgePrompts (evaluate_answer cexLlm cexSearch cexJudge 1 5 "q").2).length = 1) ∧
    ((judgePrompts (evaluate_answer cexLlm cexSearch cexJudge 1 5 "q").2).all
      (fun p => strContainsSub p
        (fullContext (cexSearch "q" (resolve_k none 5)))) = false) := by
  refine ⟨by decide, by decide, by decide⟩

end RAGSpec
